import Mathlib

/-!
Verification of the dynamic SQL-fragment construction core of the jobly
backend (src/helpers/sql.js): the partial-update compiler
`sqlForPartialUpdate` and the two filter-clause compilers
`companyWriteWhere` and `jobWriteWhere`.

JavaScript values that can appear as update values or filter criteria are
modelled by the inductive type `JVal`; a destructured-but-missing object
field is `JVal.undef`, so JavaScript truthiness tests (`!name`,
`Boolean(hasEquity)`) become the `JVal.truthy` predicate. Ordered objects
become association lists, which preserve the insertion order that
`Object.keys` iterates in. The thrown `BadRequestError("No data")` becomes
the `Except.error` branch of the result.
-/

namespace Jobly

/-- A JavaScript value as it can reach the SQL helpers: `undefined`, `null`,
a boolean, a number (the helpers only ever meet integral ones), or a
string. -/
inductive JVal where
  | undef : JVal
  | null : JVal
  | bool (b : Bool) : JVal
  | num (n : Int) : JVal
  | str (s : String) : JVal
deriving DecidableEq, Repr

/-- JavaScript truthiness: `undefined`, `null`, `false`, `0` and the empty
string are falsy; everything else this model can express is truthy. -/
def JVal.truthy : JVal → Bool
  | .undef => false
  | .null => false
  | .bool b => b
  | .num n => decide (n ≠ 0)
  | .str s => decide (s ≠ "")

/-- Result of `sqlForPartialUpdate`: the joined SET fragment and the
positional argument list, mirroring the returned object
`{ setCols, values }`. -/
structure CompiledSet where
  setCols : String
  values : List JVal
deriving DecidableEq, Repr

/-- Result of a filter compiler: the WHERE fragment and its positional
argument list, mirroring the returned object `{ where, values }` (the field
`where` is a reserved word in Lean, hence `whereClause`). -/
structure CompiledClause where
  whereClause : String
  values : List JVal
deriving DecidableEq, Repr

/-- Property lookup `m[k]` on an object modelled as an association list:
the value at the first matching key, or `none` when the key is absent. -/
def lookupMap (m : List (String × String)) (k : String) : Option String :=
  (m.find? (fun p => p.1 == k)).map Prod.snd

/-- The column-name resolution `jsToSql[colName] || colName` of
sql.js line 28: the mapped name when the lookup yields a truthy (non-empty)
string, the logical name otherwise. -/
def resolveCol (jsToSql : List (String × String)) (colName : String) : String :=
  match lookupMap jsToSql colName with
  | some s => if s = "" then colName else s
  | none => colName

/-- `sqlForPartialUpdate(dataToUpdate, jsToSql)` of sql.js lines 19-35.
`dataToUpdate` is an ordered object, modelled as an association list in
insertion order; `Object.keys` and `Object.values` are its two
projections. Throws (`Except.error`) on an empty object; otherwise emits
one fragment `"col"=$i` per key, 1-indexed in key order, joined by
a comma and a space. -/
def sqlForPartialUpdate (dataToUpdate : List (String × JVal))
    (jsToSql : List (String × String)) : Except String CompiledSet :=
  let keys := dataToUpdate.map Prod.fst
  if keys.length = 0 then
    Except.error "No data"
  else
    let cols := keys.enum.map
      (fun p => "\"" ++ resolveCol jsToSql p.2 ++ "\"=$" ++ toString (p.1 + 1))
    Except.ok { setCols := String.intercalate ", " cols,
                values := dataToUpdate.map Prod.snd }

/-- The destructured argument `{name, min, max}` of `companyWriteWhere`;
a field the caller did not supply destructures to `undefined`. -/
structure CompanyCriteria where
  name : JVal
  min : JVal
  max : JVal
deriving DecidableEq, Repr

/-- `companyWriteWhere({name, min, max})` of sql.js lines 37-66: the
if/else ladder selecting the company WHERE fragment, `null` becoming
`none`. Conditions are JavaScript truthiness tests on the three fields. -/
def companyWriteWhere (c : CompanyCriteria) : Option CompiledClause :=
  let name := c.name.truthy
  let min := c.min.truthy
  let max := c.max.truthy
  if !name && !min && !max then
    none
  else if !name && !min then
    some { whereClause := "WHERE num_employees <= $1", values := [c.max] }
  else if !name && !max then
    some { whereClause := "WHERE num_employees >= $1", values := [c.min] }
  else if !name then
    some { whereClause := "WHERE num_employees >= $1 AND num_employees <= $2",
           values := [c.min, c.max] }
  else if !max && !min then
    some { whereClause := "WHERE UPPER(name) LIKE UPPER($1)", values := [c.name] }
  else if !min then
    some { whereClause := "WHERE UPPER(name) LIKE UPPER($1) AND num_employees <= $2",
           values := [c.name, c.max] }
  else
    some { whereClause := "WHERE UPPER(name) LIKE UPPER($1) AND num_employees >= $2",
           values := [c.name, c.min] }

/-- The destructured argument `{title, minSalary, hasEquity}` of
`jobWriteWhere`; a field the caller did not supply destructures to
`undefined`. -/
structure JobCriteria where
  title : JVal
  minSalary : JVal
  hasEquity : JVal
deriving DecidableEq, Repr

/-- `jobWriteWhere({title, minSalary, hasEquity})` of sql.js lines 68-111:
the if/else ladder selecting the job WHERE fragment, with the nested
`Boolean(hasEquity)` tests, `null` becoming `none`. The literal `0` pushed
for the equity comparison is the number value `JVal.num 0`. -/
def jobWriteWhere (c : JobCriteria) : Option CompiledClause :=
  let title := c.title.truthy
  let minSalary := c.minSalary.truthy
  let hasEquity := c.hasEquity.truthy
  if !title && !minSalary && !hasEquity then
    none
  else if !title && !minSalary then
    if hasEquity then
      some { whereClause := "WHERE equity > $1", values := [.num 0] }
    else
      none
  else if !title && !hasEquity then
    some { whereClause := "WHERE salary >= $1", values := [c.minSalary] }
  else if !title then
    if hasEquity then
      some { whereClause := "WHERE salary >= $1 AND equity > $2",
             values := [c.minSalary, .num 0] }
    else
      some { whereClause := "WHERE salary >= $1", values := [c.minSalary] }
  else if !hasEquity && !minSalary then
    some { whereClause := "WHERE UPPER(title) LIKE UPPER($1)", values := [c.title] }
  else if !minSalary then
    if hasEquity then
      some { whereClause := "WHERE UPPER(title) LIKE UPPER($1) AND equity > $2",
             values := [c.title, .num 0] }
    else
      some { whereClause := "WHERE UPPER(title) LIKE UPPER($1)", values := [c.title] }
  else
    some { whereClause := "WHERE UPPER(title) LIKE UPPER($1) AND salary >= $2",
           values := [c.title, c.minSalary] }

/-- Decimal value of a digit run, most significant digit first. -/
def digitsToNat (l : List Char) : Nat :=
  l.foldl (fun a c => a * 10 + (c.toNat - 48)) 0

/-- Fuel-driven scan of a character list: each occurrence of the dollar
sign starts a positional placeholder whose index is the digit run that
follows it. -/
def placeholdersGo : Nat → List Char → List Nat
  | 0, _ => []
  | _ + 1, [] => []
  | fuel + 1, c :: cs =>
    if c = '$' then
      digitsToNat (cs.takeWhile Char.isDigit) ::
        placeholdersGo fuel (cs.dropWhile Char.isDigit)
    else
      placeholdersGo fuel cs

/-- The positional placeholder indices occurring in an SQL fragment, in
textual order: the number following each dollar sign. -/
def placeholders (s : String) : List Nat :=
  placeholdersGo s.length s.data

@[simp] theorem truthy_undef : JVal.undef.truthy = false := rfl

@[simp] theorem truthy_num_zero : (JVal.num 0).truthy = false := rfl

@[simp] theorem truthy_bool_false : (JVal.bool false).truthy = false := rfl

/-- Claim C2: called with an empty update request and any column-name map,
sqlForPartialUpdate fails with the "No data" error (the InvalidArgument
condition) and never returns a compiled clause; the check is the first
thing the function does, before any other effect. -/
theorem sqlForPartialUpdate_empty (jsToSql : List (String × String)) :
    sqlForPartialUpdate [] jsToSql = Except.error "No data" := rfl

/-- Claim C3: the company filter compiler maps the empty criteria record to
null, a max-only record to the num_employees upper-bound clause, a
min-and-max record to the two-sided clause with values in min-then-max
order, and a name-only record to the case-insensitive name-match clause
with the name as sole value. -/
theorem companyWriteWhere_spec_examples :
    companyWriteWhere ⟨.undef, .undef, .undef⟩ = none ∧
    companyWriteWhere ⟨.undef, .undef, .num 50⟩ =
      some ⟨"WHERE num_employees <= $1", [.num 50]⟩ ∧
    companyWriteWhere ⟨.undef, .num 10, .num 50⟩ =
      some ⟨"WHERE num_employees >= $1 AND num_employees <= $2",
            [.num 10, .num 50]⟩ ∧
    companyWriteWhere ⟨.str "co", .undef, .undef⟩ =
      some ⟨"WHERE UPPER(name) LIKE UPPER($1)", [.str "co"]⟩ :=
  ⟨rfl, rfl, rfl, rfl⟩

/-- Claim C4: the job filter compiler maps a true equity flag alone to the
equity-greater-than clause with literal value 0, a false equity flag alone
to null, minSalary with a true equity flag to the salary-and-equity clause
with values [minSalary, 0], and title with minSalary to the
title-match-and-salary clause with values [title, minSalary]. -/
theorem jobWriteWhere_spec_examples :
    jobWriteWhere ⟨.undef, .undef, .bool true⟩ =
      some ⟨"WHERE equity > $1", [.num 0]⟩ ∧
    jobWriteWhere ⟨.undef, .undef, .bool false⟩ = none ∧
    jobWriteWhere ⟨.undef, .num 1000, .bool true⟩ =
      some ⟨"WHERE salary >= $1 AND equity > $2", [.num 1000, .num 0]⟩ ∧
    jobWriteWhere ⟨.str "cook", .num 500, .undef⟩ =
      some ⟨"WHERE UPPER(title) LIKE UPPER($1) AND salary >= $2",
            [.str "cook", .num 500]⟩ :=
  ⟨rfl, rfl, rfl, rfl⟩

/-- Claim C5: when name, min and max are all present (truthy), the company
filter compiler lands in the final else branch: the name-match fragment
ANDed with only the lower num_employees bound, binding [name, min]; the
max bound reaches neither the fragment nor the value list. -/
theorem companyWriteWhere_all_three (c : CompanyCriteria)
    (hn : c.name.truthy = true) (hmin : c.min.truthy = true)
    (hmax : c.max.truthy = true) :
    companyWriteWhere c =
      some ⟨"WHERE UPPER(name) LIKE UPPER($1) AND num_employees >= $2",
            [c.name, c.min]⟩ := by
  simp [companyWriteWhere, hn, hmin, hmax]

/-- Witness for claim C5 at the concrete record
(name = "co", min = 10, max = 50). -/
theorem companyWriteWhere_all_three_witness :
    (JVal.str "co").truthy = true ∧
    companyWriteWhere ⟨.str "co", .num 10, .num 50⟩ =
      some ⟨"WHERE UPPER(name) LIKE UPPER($1) AND num_employees >= $2",
            [.str "co", .num 10]⟩ :=
  ⟨by decide, companyWriteWhere_all_three ⟨.str "co", .num 10, .num 50⟩
    (by decide) (by decide) (by decide)⟩

/-- Claim C6: when title and minSalary are both present (truthy), the job
filter compiler lands in the final else branch regardless of the equity
flag: the title-match fragment ANDed with the salary lower bound, binding
[title, minSalary], with no equity comparison. -/
theorem jobWriteWhere_title_minSalary (c : JobCriteria)
    (ht : c.title.truthy = true) (hs : c.minSalary.truthy = true) :
    jobWriteWhere c =
      some ⟨"WHERE UPPER(title) LIKE UPPER($1) AND salary >= $2",
            [c.title, c.minSalary]⟩ := by
  simp [jobWriteWhere, ht, hs]

/-- Witness for claim C6 at the concrete record
(title = "cook", minSalary = 500, hasEquity = true) — with the equity flag
supplied and true, it is still ignored. -/
theorem jobWriteWhere_title_minSalary_witness :
    (JVal.str "cook").truthy = true ∧
    jobWriteWhere ⟨.str "cook", .num 500, .bool true⟩ =
      some ⟨"WHERE UPPER(title) LIKE UPPER($1) AND salary >= $2",
            [.str "cook", .num 500]⟩ :=
  ⟨by decide, jobWriteWhere_title_minSalary ⟨.str "cook", .num 500, .bool true⟩
    (by decide) (by decide)⟩

/-- Claim C7: in both filter compilers a numeric bound whose value is 0,
and a job equity flag whose value is false, behave exactly as a field that
was never supplied (destructured to undefined): the compiled output is
identical under the substitution, and a record whose only supplied fields
are such values yields null. -/
theorem writeWhere_zero_false_absent :
    (∀ name mx, companyWriteWhere ⟨name, .num 0, mx⟩ =
        companyWriteWhere ⟨name, .undef, mx⟩) ∧
    (∀ name mn, companyWriteWhere ⟨name, mn, .num 0⟩ =
        companyWriteWhere ⟨name, mn, .undef⟩) ∧
    (∀ title he, jobWriteWhere ⟨title, .num 0, he⟩ =
        jobWriteWhere ⟨title, .undef, he⟩) ∧
    (∀ title ms, jobWriteWhere ⟨title, ms, .bool false⟩ =
        jobWriteWhere ⟨title, ms, .undef⟩) ∧
    companyWriteWhere ⟨.undef, .num 0, .num 0⟩ = none ∧
    jobWriteWhere ⟨.undef, .num 0, .bool false⟩ = none := by
  refine ⟨?_, ?_, ?_, ?_, rfl, rfl⟩
  · intro name mx
    cases hn : name.truthy <;> cases hx : mx.truthy <;>
      simp [companyWriteWhere, hn, hx]
  · intro name mn
    cases hn : name.truthy <;> cases hm : mn.truthy <;>
      simp [companyWriteWhere, hn, hm]
  · intro title he
    cases ht : title.truthy <;> cases he2 : he.truthy <;>
      simp [jobWriteWhere, ht, he2]
  · intro title ms
    cases ht : title.truthy <;> cases hs : ms.truthy <;>
      simp [jobWriteWhere, ht, hs]

/-- Claim C8: neither filter compiler can fail (both are total functions of
their criteria record); each returns null exactly when no criterion is
present under JavaScript truthiness — which for the job variant subsumes
the case of an equity flag supplied as false being the only field given —
and otherwise returns a compiled clause. -/
theorem writeWhere_none_iff :
    (∀ c : CompanyCriteria, companyWriteWhere c = none ↔
      c.name.truthy = false ∧ c.min.truthy = false ∧ c.max.truthy = false) ∧
    (∀ c : JobCriteria, jobWriteWhere c = none ↔
      c.title.truthy = false ∧ c.minSalary.truthy = false ∧
        c.hasEquity.truthy = false) := by
  constructor
  · intro c
    cases hn : c.name.truthy <;> cases hm : c.min.truthy <;>
      cases hx : c.max.truthy <;> simp [companyWriteWhere, hn, hm, hx]
  · intro c
    cases ht : c.title.truthy <;> cases hs : c.minSalary.truthy <;>
      cases he : c.hasEquity.truthy <;> simp [jobWriteWhere, ht, hs, he]

/-- Claim C10: whenever either filter compiler returns a compiled clause,
the placeholder indices read off the WHERE fragment are exactly the
contiguous sequence 1..n where n is the length of the value list, and n
never exceeds 2 — even when all three criteria are present. -/
theorem writeWhere_placeholder_invariant :
    (∀ (c : CompanyCriteria) (r : CompiledClause), companyWriteWhere c = some r →
      placeholders r.whereClause = List.range' 1 r.values.length ∧
        r.values.length ≤ 2) ∧
    (∀ (c : JobCriteria) (r : CompiledClause), jobWriteWhere c = some r →
      placeholders r.whereClause = List.range' 1 r.values.length ∧
        r.values.length ≤ 2) := by
  constructor
  · intro c r h
    cases hn : c.name.truthy <;> cases hm : c.min.truthy <;>
      cases hx : c.max.truthy <;>
      simp [companyWriteWhere, hn, hm, hx] at h <;>
      subst h <;> constructor <;> simp <;> decide
  · intro c r h
    cases ht : c.title.truthy <;> cases hs : c.minSalary.truthy <;>
      cases he : c.hasEquity.truthy <;>
      simp [jobWriteWhere, ht, hs, he] at h <;>
      subst h <;> constructor <;> simp <;> decide

/-- Witness for claim C10 at the company record with all three criteria
present: two placeholders, numbered 1 and 2, two values. -/
theorem writeWhere_placeholder_invariant_witness :
    placeholders "WHERE UPPER(name) LIKE UPPER($1) AND num_employees >= $2" =
      List.range' 1 2 ∧ (2 : Nat) ≤ 2 := by
  have h := writeWhere_placeholder_invariant.1 ⟨.str "co", .num 10, .num 50⟩
    ⟨"WHERE UPPER(name) LIKE UPPER($1) AND num_employees >= $2",
     [.str "co", .num 10]⟩ rfl
  exact h

/-- The fragment list built by sqlForPartialUpdate for a given request and
rename map: one fragment per key, indexed from 1 in key order. -/
def updateCols (d : List (String × JVal)) (js : List (String × String)) :
    List String :=
  (d.map Prod.fst).enum.map
    (fun p => "\"" ++ resolveCol js p.2 ++ "\"=$" ++ toString (p.1 + 1))

theorem sqlForPartialUpdate_ok (d : List (String × JVal))
    (js : List (String × String)) (hd : d ≠ []) :
    sqlForPartialUpdate d js =
      Except.ok ⟨String.intercalate ", " (updateCols d js), d.map Prod.snd⟩ := by
  unfold sqlForPartialUpdate updateCols
  simp [hd]

theorem updateCols_length (d : List (String × JVal))
    (js : List (String × String)) : (updateCols d js).length = d.length := by
  simp [updateCols]

theorem updateCols_get (d : List (String × JVal))
    (js : List (String × String)) (i : Nat) (k : String) (v : JVal)
    (h : d[i]? = some (k, v)) :
    (updateCols d js)[i]? =
      some ("\"" ++ resolveCol js k ++ "\"=$" ++ toString (i + 1)) := by
  have hk : (d.map Prod.fst)[i]? = some k := by
    simp [List.getElem?_map, h]
  simp [updateCols, List.getElem?_map, List.getElem?_enum, hk]

/-- Claim C1: on any non-empty update request and any column-name map,
sqlForPartialUpdate returns a setCols string that is the comma-space join
of one fragment per input field, in input order, the i-th fragment carrying
placeholder index i+1 (so indices run 1..N, restarting at 1 on every
call), together with the value list of the same length holding the new
values in input order. -/
theorem sqlForPartialUpdate_shape (d : List (String × JVal))
    (js : List (String × String)) (hd : d ≠ []) :
    ∃ cols : List String,
      sqlForPartialUpdate d js =
        Except.ok ⟨String.intercalate ", " cols, d.map Prod.snd⟩ ∧
      cols.length = d.length ∧
      (d.map Prod.snd).length = d.length ∧
      ∀ i k v, d[i]? = some (k, v) →
        cols[i]? =
          some ("\"" ++ resolveCol js k ++ "\"=$" ++ toString (i + 1)) := by
  refine ⟨updateCols d js, sqlForPartialUpdate_ok d js hd,
    updateCols_length d js, by simp, ?_⟩
  intro i k v h
  exact updateCols_get d js i k v h

/-- Witness for claim C1 at the concrete request
(firstName = "Aliya", age = 32) with the rename map
(firstName mapped to first_name). -/
theorem sqlForPartialUpdate_shape_witness :
    ([("firstName", JVal.str "Aliya"), ("age", JVal.num 32)] :
        List (String × JVal)) ≠ [] ∧
    ∃ cols : List String,
      sqlForPartialUpdate
          [("firstName", JVal.str "Aliya"), ("age", JVal.num 32)]
          [("firstName", "first_name")] =
        Except.ok ⟨String.intercalate ", " cols,
          [("firstName", JVal.str "Aliya"),
           ("age", JVal.num 32)].map Prod.snd⟩ ∧
      cols.length = 2 ∧
      ([("firstName", JVal.str "Aliya"),
        ("age", JVal.num 32)].map Prod.snd).length = 2 ∧
      ∀ i k v,
        ([("firstName", JVal.str "Aliya"),
          ("age", JVal.num 32)] : List (String × JVal))[i]? = some (k, v) →
        cols[i]? =
          some ("\"" ++ resolveCol [("firstName", "first_name")] k ++ "\"=$" ++
            toString (i + 1)) :=
  ⟨by decide,
   sqlForPartialUpdate_shape
     [("firstName", JVal.str "Aliya"), ("age", JVal.num 32)]
     [("firstName", "first_name")] (by decide)⟩

/-- Claim C9, counterexample: with a column-name map sending the field
name a to the empty string, the field IS a key of the column-name map, yet
the emitted fragment renders the logical name a rather than the mapped
name: the JavaScript fallback jsToSql[colName] || colName treats a falsy
(empty) mapped name exactly like an absent one, so the claim as stated
fails at this input. -/
theorem sqlForPartialUpdate_empty_mapped_name :
    lookupMap [("a", "")] "a" = some "" ∧
    sqlForPartialUpdate [("a", JVal.num 1)] [("a", "")] =
      Except.ok ⟨"\"a\"=$1", [JVal.num 1]⟩ ∧
    ("\"a\"=$1" : String) ≠ "\"\"=$1" :=
  ⟨rfl, rfl, by decide⟩

/-- Claim C9 as amended: a field of a non-empty update request is rendered
under its mapped column name when the column-name map carries it to a
non-empty name, and under its own logical name when the field is absent
from the map or mapped to the empty string; in both cases the rendered
name is wrapped in double quotes in the emitted fragment. -/
theorem sqlForPartialUpdate_colname (d : List (String × JVal))
    (js : List (String × String)) (i : Nat) (k : String) (v : JVal)
    (hi : d[i]? = some (k, v)) :
    ∃ cols : List String,
      sqlForPartialUpdate d js =
        Except.ok ⟨String.intercalate ", " cols, d.map Prod.snd⟩ ∧
      (∀ s, lookupMap js k = some s → s ≠ "" →
        cols[i]? = some ("\"" ++ s ++ "\"=$" ++ toString (i + 1))) ∧
      ((lookupMap js k = none ∨ lookupMap js k = some "") →
        cols[i]? = some ("\"" ++ k ++ "\"=$" ++ toString (i + 1))) := by
  have hd : d ≠ [] := by
    intro h
    subst h
    simp at hi
  refine ⟨updateCols d js, sqlForPartialUpdate_ok d js hd, ?_, ?_⟩
  · intro s hs hne
    rw [updateCols_get d js i k v hi]
    simp [resolveCol, hs, hne]
  · intro hcase
    rw [updateCols_get d js i k v hi]
    rcases hcase with h1 | h1 <;> simp [resolveCol, h1]

/-- Witness for the amended claim C9 at the concrete request
(jobDescription = "agent") with the rename map sending jobDescription to
job_description: both the mapped-name case and the own-name cases are
instantiated at index 0. -/
theorem sqlForPartialUpdate_colname_witness :
    (([("jobDescription", JVal.str "agent")] : List (String × JVal))[0]? =
      some ("jobDescription", JVal.str "agent")) ∧
    ∃ cols : List String,
      sqlForPartialUpdate [("jobDescription", JVal.str "agent")]
          [("jobDescription", "job_description")] =
        Except.ok ⟨String.intercalate ", " cols,
          [("jobDescription", JVal.str "agent")].map Prod.snd⟩ ∧
      (∀ s, lookupMap [("jobDescription", "job_description")] "jobDescription" =
          some s → s ≠ "" →
        cols[0]? = some ("\"" ++ s ++ "\"=$" ++ toString (0 + 1))) ∧
      ((lookupMap [("jobDescription", "job_description")] "jobDescription" =
          none ∨
        lookupMap [("jobDescription", "job_description")] "jobDescription" =
          some "") →
        cols[0]? = some ("\"" ++ "jobDescription" ++ "\"=$" ++ toString (0 + 1))) :=
  ⟨by decide,
   sqlForPartialUpdate_colname [("jobDescription", JVal.str "agent")]
     [("jobDescription", "job_description")] 0 "jobDescription"
     (JVal.str "agent") (by decide)⟩

end Jobly
